import Mathlib

/-!
Verification of the breakpoint/watchpoint management contract of the
gdbstub target-extension module (src/target/ext/breakpoints.rs).

The source file declares the data type WatchKind and the three capability
traits SwBreakpoint, HwBreakpoint and HwWatchpoint, each with add/remove
operations returning TargetResult, which is Result with a bool payload and a
TargetError error. The concrete behavior of the operations is the contract a
target implementation must satisfy; it is embedded here as a reference model
built from the words of the specification. WatchKind itself is embedded
directly from the source.
-/

namespace GdbStub

/-- The kind of watchpoint that should be set/removed, embedded from the
source enum WatchKind with its three variants Write, Read and ReadWrite. -/
inductive WatchKind where
  | Write
  | Read
  | ReadWrite
deriving DecidableEq, Repr, Fintype

/-- Structural boolean equality on WatchKind, mirroring the derived
structural PartialEq/Eq of the source enum: two values are equal exactly
when they are the same variant. -/
def WatchKind.beq : WatchKind → WatchKind → Bool
  | .Write, .Write => true
  | .Read, .Read => true
  | .ReadWrite, .ReadWrite => true
  | _, _ => false

/-- Modelled from the spec: TargetError (declared in the target module of
this repository, outside the embedded source file) is the fault tier of the
two-tier result taxonomy: a target-mechanism malfunction that propagates as
a target-fatal error. -/
inductive TargetError where
  | fault
deriving DecidableEq, Repr

/-- TargetResult with a bool payload, as used by all six breakpoint and
watchpoint operations: Except.ok true is success, Except.ok false is a
benign refusal, Except.error is a target-mechanism fault. -/
abbrev TargetResult := Except TargetError Bool

/-- Modelled from the spec: the state a debug target keeps for its
breakpoint mechanisms. The target owns all breakpoint/watchpoint state;
each mechanism has a finite capacity of slots, software breakpoints and
hardware breakpoints are registrations of an address, and hardware
watchpoints are registrations of an address together with a WatchKind
(an address with kind ReadWrite is a distinct registration from the same
address with kind Write). Addresses are unsigned integers whose width is
supplied by the architecture; they are modelled as Nat. -/
structure RefTarget where
  swCap : Nat
  hwCap : Nat
  wpCap : Nat
  swBps : List Nat
  hwBps : List Nat
  wps : List (Nat × WatchKind)
deriving DecidableEq, Repr

/-- Modelled from the spec: add a new software breakpoint. Returns ok true
on success; returns ok false, with the state unchanged, when the request
cannot be honored for a benign reason (duplicate entry, or slot
exhaustion). -/
def RefTarget.add_sw_breakpoint (t : RefTarget) (addr : Nat) :
    RefTarget × TargetResult :=
  if addr ∈ t.swBps then (t, .ok false)
  else if t.swBps.length < t.swCap then
    ({ t with swBps := addr :: t.swBps }, .ok true)
  else (t, .ok false)

/-- Modelled from the spec: remove an existing software breakpoint. Returns
ok true when a matching breakpoint was installed and disarms it; returns
ok false, with the state unchanged, when no matching breakpoint was
installed, which is a normal expected outcome, not a fault. -/
def RefTarget.remove_sw_breakpoint (t : RefTarget) (addr : Nat) :
    RefTarget × TargetResult :=
  if addr ∈ t.swBps then ({ t with swBps := t.swBps.erase addr }, .ok true)
  else (t, .ok false)

/-- Modelled from the spec: add a new hardware breakpoint, consuming one of
the finite hardware instruction-breakpoint slots. Returns ok false, with
the state unchanged, on a duplicate entry or once the slots are
exhausted. -/
def RefTarget.add_hw_breakpoint (t : RefTarget) (addr : Nat) :
    RefTarget × TargetResult :=
  if addr ∈ t.hwBps then (t, .ok false)
  else if t.hwBps.length < t.hwCap then
    ({ t with hwBps := addr :: t.hwBps }, .ok true)
  else (t, .ok false)

/-- Modelled from the spec: remove an existing hardware breakpoint;
symmetric to the software variant. -/
def RefTarget.remove_hw_breakpoint (t : RefTarget) (addr : Nat) :
    RefTarget × TargetResult :=
  if addr ∈ t.hwBps then ({ t with hwBps := t.hwBps.erase addr }, .ok true)
  else (t, .ok false)

/-- Modelled from the spec: arm a hardware data watchpoint at an address
for the access directions named by the kind. A registration is the pair of
address and kind. Returns ok false, with the state unchanged, on a
duplicate registration or capacity refusal. -/
def RefTarget.add_hw_watchpoint (t : RefTarget) (addr : Nat)
    (kind : WatchKind) : RefTarget × TargetResult :=
  if (addr, kind) ∈ t.wps then (t, .ok false)
  else if t.wps.length < t.wpCap then
    ({ t with wps := (addr, kind) :: t.wps }, .ok true)
  else (t, .ok false)

/-- Modelled from the spec: disarm exactly the watchpoint matching both the
address and the kind; removal must match kind precisely, so no watchpoint
with a different kind at the same address is affected. Returns ok false,
with the state unchanged, when no exact match is armed. -/
def RefTarget.remove_hw_watchpoint (t : RefTarget) (addr : Nat)
    (kind : WatchKind) : RefTarget × TargetResult :=
  if (addr, kind) ∈ t.wps then
    ({ t with wps := t.wps.erase (addr, kind) }, .ok true)
  else (t, .ok false)

/-- One request to the breakpoint/watchpoint contract: the six operations
of the three capability traits, with their address (and kind) argument. -/
inductive BpOp where
  | addSw (addr : Nat)
  | removeSw (addr : Nat)
  | addHw (addr : Nat)
  | removeHw (addr : Nat)
  | addWp (addr : Nat) (kind : WatchKind)
  | removeWp (addr : Nat) (kind : WatchKind)
deriving DecidableEq, Repr

/-- Dispatch one of the six operations against a target state, returning
the successor state and the TargetResult of the call. -/
def execBp (t : RefTarget) : BpOp → RefTarget × TargetResult
  | .addSw a => t.add_sw_breakpoint a
  | .removeSw a => t.remove_sw_breakpoint a
  | .addHw a => t.add_hw_breakpoint a
  | .removeHw a => t.remove_hw_breakpoint a
  | .addWp a k => t.add_hw_watchpoint a k
  | .removeWp a k => t.remove_hw_watchpoint a k

/-- Step relation of the contract: the graph of execBp. One invocation of
an operation from a target state steps to exactly the outcome execBp
computes. -/
def BpStep (t : RefTarget) (op : BpOp) (out : RefTarget × TargetResult) :
    Prop :=
  execBp t op = out

/-- A sample target with four slots for each mechanism and nothing armed,
used to instantiate the contract theorems at concrete inputs. -/
def sampleTarget : RefTarget :=
  { swCap := 4, hwCap := 4, wpCap := 4, swBps := [], hwBps := [], wps := [] }

/-- Every invocation of any of the six operations returns exactly one of
the two ok tiers or an error. Shared helper for the result-shape
theorems. -/
lemma execBp_result_trichotomy (t : RefTarget) (op : BpOp) :
    (execBp t op).2 = Except.ok true ∨ (execBp t op).2 = Except.ok false ∨
      ∃ e, (execBp t op).2 = Except.error e := by
  cases h : (execBp t op).2 with
  | ok b =>
    cases b
    · exact Or.inr (Or.inl rfl)
    · exact Or.inl rfl
  | error e => exact Or.inr (Or.inr ⟨e, rfl⟩)

/-- Claim C7: WatchKind is a closed enumeration of exactly the three values
Write, Read and ReadWrite: every WatchKind value is one of these three, no
fourth value can be constructed, the three are pairwise distinct, and
values are compared by (decidable) equality. -/
theorem watchKind_closed_enumeration :
    (∀ k : WatchKind, k = WatchKind.Write ∨ k = WatchKind.Read ∨
      k = WatchKind.ReadWrite) ∧
    WatchKind.Write ≠ WatchKind.Read ∧
    WatchKind.Write ≠ WatchKind.ReadWrite ∧
    WatchKind.Read ≠ WatchKind.ReadWrite ∧
    (∀ k k' : WatchKind, k = k' ∨ k ≠ k') := by
  decide

/-- Claim C10: equality on WatchKind is derived structural equality:
decidable (the boolean test agrees with propositional equality), reflexive,
symmetric and transitive, and the three variants are pairwise distinct, in
particular ReadWrite differs from Write and from Read. -/
theorem watchKind_structural_equality :
    (∀ k k' : WatchKind, WatchKind.beq k k' = true ↔ k = k') ∧
    (∀ k : WatchKind, WatchKind.beq k k = true) ∧
    (∀ k k' : WatchKind, WatchKind.beq k k' = WatchKind.beq k' k) ∧
    (∀ k1 k2 k3 : WatchKind, WatchKind.beq k1 k2 = true →
      WatchKind.beq k2 k3 = true → WatchKind.beq k1 k3 = true) ∧
    WatchKind.beq WatchKind.ReadWrite WatchKind.Write = false ∧
    WatchKind.beq WatchKind.ReadWrite WatchKind.Read = false ∧
    WatchKind.beq WatchKind.Write WatchKind.Read = false := by
  decide

/-- Claim C10 witness: the transitivity and decidability components of the
structural-equality theorem applied at the concrete variant Write. -/
theorem watchKind_structural_equality_witness :
    WatchKind.beq WatchKind.Write WatchKind.Write = true :=
  watchKind_structural_equality.2.2.2.1 WatchKind.Write WatchKind.Write
    WatchKind.Write (by decide) (by decide)

/-- Claim C1: every one of the six operations returns the two-tier
TargetResult: its outcome is exactly one of ok true (success), ok false
(benign refusal) or error (target-mechanism fault), and the three outcome
shapes are pairwise distinct, so refusal and fault can never be
conflated. -/
theorem breakpoint_result_two_tier :
    (∀ (t : RefTarget) (op : BpOp),
      (execBp t op).2 = Except.ok true ∨ (execBp t op).2 = Except.ok false ∨
        ∃ e, (execBp t op).2 = Except.error e) ∧
    (Except.ok true ≠ (Except.ok false : TargetResult)) ∧
    (∀ e, (Except.ok true : TargetResult) ≠ Except.error e) ∧
    (∀ e, (Except.ok false : TargetResult) ≠ Except.error e) := by
  refine ⟨execBp_result_trichotomy, by simp, ?_, ?_⟩ <;>
    · intro e h
      cases h

/-- Claim C3: removing a software breakpoint at an address that is not
currently installed (never added, or added and already removed) returns
ok false with the target state unchanged, and never an error: the
absent-entry case is a normal refusal, not a fault. -/
theorem remove_sw_breakpoint_absent (t : RefTarget) (a : Nat)
    (h : a ∉ t.swBps) :
    t.remove_sw_breakpoint a = (t, Except.ok false) ∧
    ∀ e, (t.remove_sw_breakpoint a).2 ≠ Except.error e := by
  rw [RefTarget.remove_sw_breakpoint, if_neg h]
  exact ⟨rfl, fun e he => by cases he⟩

/-- Claim C3 witness: removing address 7 from the sample target, which has
no software breakpoints installed, is the ok-false refusal. -/
theorem remove_sw_breakpoint_absent_witness :
    sampleTarget.remove_sw_breakpoint 7 = (sampleTarget, Except.ok false) ∧
    ∀ e, (sampleTarget.remove_sw_breakpoint 7).2 ≠ Except.error e :=
  remove_sw_breakpoint_absent sampleTarget 7 (by decide)

/-- Claim C5: on a target whose hardware-breakpoint slots are all in use,
the next add_hw_breakpoint call returns ok false and never an error: slot
exhaustion is a routine capacity refusal, not a fault. -/
theorem add_hw_breakpoint_capacity_refusal (t : RefTarget) (a : Nat)
    (hfull : t.hwCap ≤ t.hwBps.length) :
    (t.add_hw_breakpoint a).2 = Except.ok false ∧
    ∀ e, (t.add_hw_breakpoint a).2 ≠ Except.error e := by
  rw [RefTarget.add_hw_breakpoint]
  by_cases hm : a ∈ t.hwBps
  · rw [if_pos hm]
    exact ⟨rfl, fun e he => by cases he⟩
  · rw [if_neg hm, if_neg (Nat.not_lt.mpr hfull)]
    exact ⟨rfl, fun e he => by cases he⟩

/-- Claim C5 witness: a target with all 4 of 4 hardware slots in use
refuses the fifth add with ok false. -/
theorem add_hw_breakpoint_capacity_refusal_witness :
    ((RefTarget.mk 4 4 4 [] [0, 1, 2, 3] []).add_hw_breakpoint 9).2 =
      Except.ok false ∧
    ∀ e, ((RefTarget.mk 4 4 4 [] [0, 1, 2, 3] []).add_hw_breakpoint 9).2 ≠
      Except.error e :=
  add_hw_breakpoint_capacity_refusal (RefTarget.mk 4 4 4 [] [0, 1, 2, 3] [])
    9 (by decide)

/-- Claim C4: on a target with available software-breakpoint capacity,
adding a breakpoint at a fresh address and then immediately removing it
returns ok true and then ok true (add/remove round-trip). -/
theorem sw_breakpoint_roundtrip (t t1 : RefTarget) (a : Nat)
    (r1 : TargetResult)
    (hnew : a ∉ t.swBps) (hcap : t.swBps.length < t.swCap)
    (h1 : t.add_sw_breakpoint a = (t1, r1)) :
    r1 = Except.ok true ∧
    (t1.remove_sw_breakpoint a).2 = Except.ok true := by
  rw [RefTarget.add_sw_breakpoint, if_neg hnew, if_pos hcap] at h1
  injection h1 with ht hr
  subst ht
  subst hr
  refine ⟨rfl, ?_⟩
  rw [RefTarget.remove_sw_breakpoint,
    if_pos (show a ∈ ({ t with swBps := a :: t.swBps } : RefTarget).swBps from
      List.mem_cons_self a t.swBps)]

/-- Claim C4 witness: the round-trip on the sample target at address 5. -/
theorem sw_breakpoint_roundtrip_witness :
    (Except.ok true : TargetResult) = Except.ok true ∧
    ((RefTarget.mk 4 4 4 [5] [] []).remove_sw_breakpoint 5).2 =
      Except.ok true :=
  sw_breakpoint_roundtrip sampleTarget (RefTarget.mk 4 4 4 [5] [] []) 5
    (Except.ok true) (by decide) (by decide) rfl

/-- Claim C6: two consecutive add_sw_breakpoint calls at the same address
either both return ok true with identical target trap state after each, or
the second call returns ok false; the second call never returns an error.
In the reference model a duplicate add is a benign refusal, so the second
call always lands in the ok-false branch of the disjunction. -/
theorem add_sw_breakpoint_idempotence (t t1 t2 : RefTarget) (a : Nat)
    (r1 r2 : TargetResult)
    (h1 : t.add_sw_breakpoint a = (t1, r1))
    (h2 : t1.add_sw_breakpoint a = (t2, r2)) :
    ((r1 = Except.ok true ∧ r2 = Except.ok true ∧ t2 = t1) ∨
      r2 = Except.ok false) ∧
    ∀ e, r2 ≠ Except.error e := by
  by_cases hm : a ∈ t.swBps
  · rw [RefTarget.add_sw_breakpoint, if_pos hm] at h1
    injection h1 with ht hr
    subst ht
    subst hr
    rw [RefTarget.add_sw_breakpoint, if_pos hm] at h2
    injection h2 with ht2 hr2
    subst hr2
    exact ⟨Or.inr rfl, fun e he => by cases he⟩
  · by_cases hc : t.swBps.length < t.swCap
    · rw [RefTarget.add_sw_breakpoint, if_neg hm, if_pos hc] at h1
      injection h1 with ht hr
      subst ht
      subst hr
      rw [RefTarget.add_sw_breakpoint,
        if_pos (show a ∈ ({ t with swBps := a :: t.swBps } :
          RefTarget).swBps from List.mem_cons_self a t.swBps)] at h2
      injection h2 with ht2 hr2
      subst hr2
      exact ⟨Or.inr rfl, fun e he => by cases he⟩
    · rw [RefTarget.add_sw_breakpoint, if_neg hm, if_neg hc] at h1
      injection h1 with ht hr
      subst ht
      subst hr
      rw [RefTarget.add_sw_breakpoint, if_neg hm, if_neg hc] at h2
      injection h2 with ht2 hr2
      subst hr2
      exact ⟨Or.inr rfl, fun e he => by cases he⟩

/-- Claim C6 witness: adding address 5 twice on the sample target gives
ok true then ok false, never an error. -/
theorem add_sw_breakpoint_idempotence_witness :
    (((Except.ok true : TargetResult) = Except.ok true ∧
        (Except.ok false : TargetResult) = Except.ok true ∧
        RefTarget.mk 4 4 4 [5] [] [] = RefTarget.mk 4 4 4 [5] [] []) ∨
      (Except.ok false : TargetResult) = Except.ok false) ∧
    ∀ e, (Except.ok false : TargetResult) ≠ Except.error e :=
  add_sw_breakpoint_idempotence sampleTarget (RefTarget.mk 4 4 4 [5] [] [])
    (RefTarget.mk 4 4 4 [5] [] []) 5 (Except.ok true) (Except.ok false)
    rfl rfl

/-- Claim C2: after add_hw_watchpoint at address a with kind Write
succeeds, removing at a with any kind other than Write returns ok false
and leaves the Write watchpoint armed, so a subsequent remove at a with
kind Write returns ok true; removal matches both address and kind exactly,
and a ReadWrite registration is distinct from a Write registration. -/
theorem hw_watchpoint_kind_exact_match (t t1 : RefTarget) (a : Nat)
    (k : WatchKind) (hk : k ≠ WatchKind.Write)
    (hnot : (a, k) ∉ t.wps)
    (hadd : t.add_hw_watchpoint a WatchKind.Write = (t1, Except.ok true)) :
    t1.remove_hw_watchpoint a k = (t1, Except.ok false) ∧
    (a, WatchKind.Write) ∈ t1.wps ∧
    (t1.remove_hw_watchpoint a WatchKind.Write).2 = Except.ok true ∧
    ((a, WatchKind.ReadWrite) : Nat × WatchKind) ≠ (a, WatchKind.Write) := by
  rw [RefTarget.add_hw_watchpoint] at hadd
  by_cases hm : (a, WatchKind.Write) ∈ t.wps
  · rw [if_pos hm] at hadd
    simp at hadd
  · by_cases hc : t.wps.length < t.wpCap
    · rw [if_neg hm, if_pos hc] at hadd
      injection hadd with ht hr
      subst ht
      have hnotmem : (a, k) ∉
          ({ t with wps := (a, WatchKind.Write) :: t.wps } :
            RefTarget).wps := by
        intro hmem
        rcases List.mem_cons.mp hmem with heq | hin
        · exact hk (congrArg Prod.snd heq)
        · exact hnot hin
      refine ⟨?_, List.mem_cons_self _ _, ?_,
        fun h => WatchKind.noConfusion (congrArg Prod.snd h)⟩
      · rw [RefTarget.remove_hw_watchpoint, if_neg hnotmem]
      · rw [RefTarget.remove_hw_watchpoint,
          if_pos (show (a, WatchKind.Write) ∈
            ({ t with wps := (a, WatchKind.Write) :: t.wps } :
              RefTarget).wps from List.mem_cons_self _ _)]
    · rw [if_neg hm, if_neg hc] at hadd
      simp at hadd

/-- Claim C2 witness: on the sample target, after arming a Write
watchpoint at address 4, removing with kind Read is refused with ok false
while removing with kind Write succeeds. -/
theorem hw_watchpoint_kind_exact_match_witness :
    (RefTarget.mk 4 4 4 [] [] [(4, WatchKind.Write)]).remove_hw_watchpoint
        4 WatchKind.Read =
      (RefTarget.mk 4 4 4 [] [] [(4, WatchKind.Write)], Except.ok false) ∧
    (4, WatchKind.Write) ∈
      (RefTarget.mk 4 4 4 [] [] [(4, WatchKind.Write)]).wps ∧
    ((RefTarget.mk 4 4 4 [] [] [(4, WatchKind.Write)]).remove_hw_watchpoint
        4 WatchKind.Write).2 = Except.ok true ∧
    ((4, WatchKind.ReadWrite) : Nat × WatchKind) ≠ (4, WatchKind.Write) :=
  hw_watchpoint_kind_exact_match sampleTarget
    (RefTarget.mk 4 4 4 [] [] [(4, WatchKind.Write)]) 4 WatchKind.Read
    (by decide) (by decide) rfl

/-- Claim C9: the six operations are total and deterministic: from every
target state every operation steps to some outcome, identical states and
operations step to identical outcomes, and every outcome carries a
returned value, one of ok true, ok false or error; no call is left
pending. -/
theorem breakpoint_ops_total_deterministic :
    (∀ (t : RefTarget) (op : BpOp), ∃ out, BpStep t op out) ∧
    (∀ (t : RefTarget) (op : BpOp) (o1 o2 : RefTarget × TargetResult),
      BpStep t op o1 → BpStep t op o2 → o1 = o2) ∧
    (∀ (t : RefTarget) (op : BpOp) (o : RefTarget × TargetResult),
      BpStep t op o →
        o.2 = Except.ok true ∨ o.2 = Except.ok false ∨
          ∃ e, o.2 = Except.error e) := by
  refine ⟨fun t op => ⟨execBp t op, rfl⟩,
    fun t op o1 o2 h1 h2 => h1.symm.trans h2, ?_⟩
  intro t op o h
  subst h
  exact execBp_result_trichotomy t op

/-- Claim C9 witness: determinism applied to two concrete steps of adding
software breakpoint 5 on the sample target. -/
theorem breakpoint_ops_total_deterministic_witness :
    ((RefTarget.mk 4 4 4 [5] [] [] : RefTarget),
        (Except.ok true : TargetResult)) =
      (RefTarget.mk 4 4 4 [5] [] [], Except.ok true) :=
  breakpoint_ops_total_deterministic.2.1 sampleTarget (BpOp.addSw 5)
    (RefTarget.mk 4 4 4 [5] [] [], Except.ok true)
    (RefTarget.mk 4 4 4 [5] [] [], Except.ok true) rfl rfl

/-- Modelled from the spec: a callable handle to the software-breakpoint
operations, named after the SwBreakpointOps alias the source declares via
its extension macro (whose body lives outside the embedded source file). -/
structure SwBreakpointOps where
  add_sw_breakpoint : RefTarget → Nat → RefTarget × TargetResult
  remove_sw_breakpoint : RefTarget → Nat → RefTarget × TargetResult

/-- Modelled from the spec: a callable handle to the hardware-breakpoint
operations (the HwBreakpointOps alias of the source). -/
structure HwBreakpointOps where
  add_hw_breakpoint : RefTarget → Nat → RefTarget × TargetResult
  remove_hw_breakpoint : RefTarget → Nat → RefTarget × TargetResult

/-- Modelled from the spec: a callable handle to the hardware-watchpoint
operations (the HwWatchpointOps alias of the source). -/
structure HwWatchpointOps where
  add_hw_watchpoint :
    RefTarget → Nat → WatchKind → RefTarget × TargetResult
  remove_hw_watchpoint :
    RefTarget → Nat → WatchKind → RefTarget × TargetResult

/-- Modelled from the spec: a target together with the capabilities it
chooses to implement. Each of the three capability interfaces is held as an
independent Option: none means the capability is not implemented, and no
stub of its operations exists anywhere in the value. -/
structure TargetWithCaps where
  state : RefTarget
  sw_breakpoint : Option SwBreakpointOps
  hw_breakpoint : Option HwBreakpointOps
  hw_watchpoint : Option HwWatchpointOps

/-- Capability-discovery query for software breakpoints: inspects only the
presence of the handle, never its operations. -/
def TargetWithCaps.supports_sw_breakpoint (t : TargetWithCaps) : Bool :=
  t.sw_breakpoint.isSome

/-- Capability-discovery query for hardware breakpoints. -/
def TargetWithCaps.supports_hw_breakpoint (t : TargetWithCaps) : Bool :=
  t.hw_breakpoint.isSome

/-- Capability-discovery query for hardware watchpoints. -/
def TargetWithCaps.supports_hw_watchpoint (t : TargetWithCaps) : Bool :=
  t.hw_watchpoint.isSome

/-- The reference-model software-breakpoint handle. -/
def modelSwOps : SwBreakpointOps :=
  ⟨RefTarget.add_sw_breakpoint, RefTarget.remove_sw_breakpoint⟩

/-- The reference-model hardware-breakpoint handle. -/
def modelHwOps : HwBreakpointOps :=
  ⟨RefTarget.add_hw_breakpoint, RefTarget.remove_hw_breakpoint⟩

/-- The reference-model hardware-watchpoint handle. -/
def modelWpOps : HwWatchpointOps :=
  ⟨RefTarget.add_hw_watchpoint, RefTarget.remove_hw_watchpoint⟩

/-- Claim C8: the three capability interfaces are independently and
optionally implementable: for every subset of the three capabilities there
is a target implementing exactly that subset, and on a target that does
not implement hardware watchpoints the discovery query reports
unsupported; since the handle is none, no watchpoint method exists to be
invoked by the query. -/
theorem capability_discovery_independent :
    (∀ b1 b2 b3 : Bool, ∃ t : TargetWithCaps,
      t.supports_sw_breakpoint = b1 ∧ t.supports_hw_breakpoint = b2 ∧
        t.supports_hw_watchpoint = b3) ∧
    (∀ t : TargetWithCaps, t.hw_watchpoint = none →
      t.supports_hw_watchpoint = false) := by
  constructor
  · intro b1 b2 b3
    refine ⟨⟨sampleTarget,
      if b1 then some modelSwOps else none,
      if b2 then some modelHwOps else none,
      if b3 then some modelWpOps else none⟩, ?_, ?_, ?_⟩
    · cases b1 <;> simp [TargetWithCaps.supports_sw_breakpoint]
    · cases b2 <;> simp [TargetWithCaps.supports_hw_breakpoint]
    · cases b3 <;> simp [TargetWithCaps.supports_hw_watchpoint]
  · intro t h
    simp [TargetWithCaps.supports_hw_watchpoint, h]

/-- Claim C8 witness: a target implementing only software breakpoints
reports the hardware-watchpoint capability as unsupported. -/
theorem capability_discovery_independent_witness :
    TargetWithCaps.supports_hw_watchpoint
      ⟨sampleTarget, some modelSwOps, none, none⟩ = false :=
  capability_discovery_independent.2
    ⟨sampleTarget, some modelSwOps, none, none⟩ rfl

end GdbStub
